import Mathlib

/-!
Verification development for the FitPubFresh backend core
(`src/main.py`, with the profile-update endpoint from `src/main_complex.py`).

The Python module keeps two module-level dicts,
`users_db : Dict[str, user record]` and
`conversations_db : Dict[str, List[turn record]]`.  Python dicts preserve
insertion order, assignment to an existing key keeps its position, and
assignment to a new key appends it at the end; we model them as association
lists with exactly those semantics (`dictGet` / `dictSet`).

Timestamps (`datetime.utcnow()`) are modelled as natural-number seconds.
-/

namespace FitPub

/-- `d.get(k)` for a Python dict modelled as an insertion-ordered
association list. -/
def dictGet {α : Type} (d : List (String × α)) (k : String) : Option α :=
  match d with
  | [] => none
  | (k', v) :: rest => if k' = k then some v else dictGet rest k

/-- `d[k] = v` for a Python dict: an existing key keeps its position,
a new key is appended at the end. -/
def dictSet {α : Type} (d : List (String × α)) (k : String) (v : α) :
    List (String × α) :=
  match d with
  | [] => [(k, v)]
  | (k', v') :: rest =>
    if k' = k then (k', v) :: rest else (k', v') :: dictSet rest k v

theorem dictGet_dictSet_self {α : Type} (d : List (String × α)) (k : String)
    (v : α) : dictGet (dictSet d k v) k = some v := by
  induction d with
  | nil => simp [dictGet, dictSet]
  | cons p rest ih =>
    obtain ⟨k', v'⟩ := p
    by_cases h : k' = k
    · simp [dictGet, dictSet, h]
    · simp [dictGet, dictSet, h, ih]

theorem dictGet_dictSet_ne {α : Type} (d : List (String × α)) (k k' : String)
    (v : α) (h : k ≠ k') : dictGet (dictSet d k v) k' = dictGet d k' := by
  induction d with
  | nil => simp [dictGet, dictSet, h]
  | cons p rest ih =>
    obtain ⟨k'', v''⟩ := p
    by_cases hk : k'' = k
    · subst hk
      simp [dictGet, dictSet, h]
    · simp [dictGet, dictSet, hk, ih]

theorem dictSet_of_get_none {α : Type} (d : List (String × α)) (k : String)
    (v : α) (h : dictGet d k = none) : dictSet d k v = d ++ [(k, v)] := by
  induction d with
  | nil => simp [dictSet]
  | cons p rest ih =>
    obtain ⟨k', v'⟩ := p
    by_cases hk : k' = k
    · simp [dictGet, hk] at h
    · simp [dictGet, hk] at h
      simp [dictSet, hk, ih h]

/-! ## Python slicing

`l[a:b]` for possibly negative `a`, `b`: a negative index counts from the
end (`len + i`), then both endpoints are clamped to `[0, len]` and the
half-open range `[a', b')` of elements is returned. -/

/-- Resolve one slice endpoint of `l[a:b]` against a list of length `n`. -/
def pyBound (n : Nat) (i : Int) : Nat :=
  if i < 0 then (max ((n : Int) + i) 0).toNat else min i.toNat n

/-- `l[a:b]` (Python list slicing with step 1). -/
def pySlice {α : Type} (l : List α) (a b : Int) : List α :=
  (l.take (pyBound l.length b)).drop (pyBound l.length a)

theorem pyBound_ofNat (n k : Nat) : pyBound n (k : Int) = min k n := by
  simp [pyBound]

/-! ## Conversation turns and the conversation store -/

/-- One `conversation_record` as built by `chat_with_ai` in `src/main.py`. -/
structure Turn where
  conversation_id : String
  user_message : String
  ai_response : String
  timestamp : Nat
  context : Option (List (String × String))
  tokens_used : Nat
  response_time_ms : Option Nat
deriving Repr, DecidableEq

/-- The `conversations_db` global: user id to ordered list of turns. -/
abbrev ConvDB := List (String × List Turn)

/-- Saving one turn in `chat_with_ai`:
`if user_id not in conversations_db: conversations_db[user_id] = []` followed
by `conversations_db[user_id].append(conversation_record)`. -/
def append_turn (db : ConvDB) (uid : String) (t : Turn) : ConvDB :=
  dictSet db uid (((dictGet db uid).getD []) ++ [t])

/-- Appending a whole list of turns for one user, in order. -/
def appendTurns (db : ConvDB) (uid : String) (ts : List Turn) : ConvDB :=
  ts.foldl (fun acc t => append_turn acc uid t) db

theorem appendTurns_lookup (uid : String) (ts : List Turn) (db : ConvDB) :
    (dictGet (appendTurns db uid ts) uid).getD [] =
      (dictGet db uid).getD [] ++ ts := by
  induction ts generalizing db with
  | nil => simp [appendTurns]
  | cons t ts ih =>
    have h1 : (dictGet (append_turn db uid t) uid).getD [] =
        (dictGet db uid).getD [] ++ [t] := by
      simp [append_turn, dictGet_dictSet_self]
    calc (dictGet (appendTurns db uid (t :: ts)) uid).getD []
        = (dictGet (appendTurns (append_turn db uid t) uid ts) uid).getD [] := by
          simp [appendTurns]
      _ = (dictGet (append_turn db uid t) uid).getD [] ++ ts := ih _
      _ = (dictGet db uid).getD [] ++ (t :: ts) := by
          rw [h1, List.append_assoc]; rfl

/-! ## History endpoint -/

/-- The typed failures this core can return to the transport layer. -/
inductive ApiError
  | conflict
  | invalidCredentials
  | forbidden
deriving Repr, DecidableEq

/-- The response dict of `get_conversation_history`. -/
structure HistoryResult where
  user_id : String
  total_conversations : Nat
  limit : Int
  offset : Int
  conversations : List Turn
deriving Repr, DecidableEq

/-- `get_conversation_history` (`src/main.py` lines 313–333): forbids access
to another user's history, then slices the stored sequence with Python
slicing `user_conversations[offset : offset + limit]`. -/
def get_conversation_history (db : ConvDB) (current_user_id : String)
    (user_id : String) (limit : Int) (offset : Int) :
    Except ApiError HistoryResult :=
  if current_user_id ≠ user_id then .error .forbidden
  else
    let user_conversations := (dictGet db user_id).getD []
    .ok { user_id := user_id
          total_conversations := user_conversations.length
          limit := limit
          offset := offset
          conversations := pySlice user_conversations offset (offset + limit) }

theorem pySlice_ofNat {α : Type} (l : List α) (O L : Nat) :
    pySlice l (O : Int) ((O : Int) + (L : Int)) = (l.drop O).take L := by
  have hb : ((O : Int) + (L : Int)) = ((O + L : Nat) : Int) := by push_cast; ring
  rw [pySlice, hb, pyBound_ofNat, pyBound_ofNat]
  have h1 : l.take (min (O + L) l.length) = l.take (O + L) := by
    rcases Nat.le_total (O + L) l.length with h | h
    · rw [Nat.min_eq_left h]
    · rw [Nat.min_eq_right h, List.take_length, List.take_of_length_le h]
  rw [h1]
  rcases Nat.le_total O l.length with h | h
  · rw [Nat.min_eq_left h, List.drop_take, Nat.add_sub_cancel_left]
  · rw [Nat.min_eq_right h]
    have e1 : (l.take (O + L)).drop l.length = [] :=
      List.drop_of_length_le (by rw [List.length_take]; omega)
    have e2 : l.drop O = [] := List.drop_of_length_le h
    rw [e1, e2, List.take_nil]

/-- Concrete turns used as witnesses. -/
def turnA : Turn :=
  { conversation_id := "c1", user_message := "m1", ai_response := "r1"
    timestamp := 100, context := none, tokens_used := 3, response_time_ms := none }

def turnB : Turn :=
  { conversation_id := "c1", user_message := "m2", ai_response := "r2"
    timestamp := 200, context := none, tokens_used := 4, response_time_ms := some 5 }

def turnC : Turn :=
  { conversation_id := "c2", user_message := "m3", ai_response := "r3"
    timestamp := 300, context := none, tokens_used := 5, response_time_ms := none }

/-- C1: appending N turns for a user and listing with `limit = L`,
`offset = O` (both ≥ 0) returns exactly `turns[O : O + L]` in append order,
and the returned total equals N for every choice of `L` and `O`. -/
theorem history_pagination (db : ConvDB) (uid : String) (ts : List Turn)
    (O L : Int) (h : (dictGet db uid).getD [] = []) :
    ∃ r, get_conversation_history (appendTurns db uid ts) uid uid L O = .ok r ∧
      r.total_conversations = ts.length ∧
      (0 ≤ O → 0 ≤ L → r.conversations = (ts.drop O.toNat).take L.toNat) := by
  have hlook : (dictGet (appendTurns db uid ts) uid).getD [] = ts := by
    rw [appendTurns_lookup, h, List.nil_append]
  refine ⟨{ user_id := uid, total_conversations := ts.length, limit := L,
            offset := O, conversations := pySlice ts O (O + L) }, ?_, rfl, ?_⟩
  · simp [get_conversation_history, hlook]
  · intro hO hL
    show pySlice ts O (O + L) = (ts.drop O.toNat).take L.toNat
    conv_lhs => rw [← Int.toNat_of_nonneg hO, ← Int.toNat_of_nonneg hL]
    exact pySlice_ofNat ts O.toNat L.toNat

theorem history_pagination_witness :
    (dictGet ([] : ConvDB) "u").getD [] = [] ∧
    ∃ r, get_conversation_history (appendTurns [] "u" [turnA, turnB, turnC])
        "u" "u" 2 1 = .ok r ∧
      r.total_conversations = 3 ∧
      ((0 : Int) ≤ 1 → (0 : Int) ≤ 2 →
        r.conversations = (([turnA, turnB, turnC].drop (1 : Int).toNat).take
          (2 : Int).toNat)) := by
  refine ⟨rfl, ?_⟩
  exact history_pagination [] "u" [turnA, turnB, turnC] 1 2 rfl

/-- C5 as stated is false: with `limit = -1 ≤ 0` and `offset = 0 ≥ 0`
Python negative-end slicing returns a non-empty slice `[turnA]`. -/
theorem history_limit_nonpos_counterexample :
    (-1 : Int) ≤ 0 ∧ (0 : Int) ≥ 0 ∧
    get_conversation_history [("u", [turnA, turnB])] "u" "u" (-1) 0 =
      .ok { user_id := "u", total_conversations := 2, limit := -1, offset := 0,
            conversations := [turnA] } := by
  refine ⟨by norm_num, by norm_num, by rfl⟩

/-- C5 amended: with `offset ≥ 0` and `limit ≤ 0`, the slice is empty as
long as `offset + limit ≥ 0` (otherwise the negative end index wraps around
the end of the list); the total always reflects the full stored length. -/
theorem history_limit_nonpos_amended (db : ConvDB) (uid : String)
    (L O : Int) (hL : L ≤ 0) (hO : 0 ≤ O) (hOL : 0 ≤ O + L) :
    ∃ r, get_conversation_history db uid uid L O = .ok r ∧
      r.conversations = [] ∧
      r.total_conversations = ((dictGet db uid).getD []).length := by
  refine ⟨{ user_id := uid,
            total_conversations := ((dictGet db uid).getD []).length,
            limit := L, offset := O,
            conversations := pySlice ((dictGet db uid).getD []) O (O + L) },
          by simp [get_conversation_history], ?_, rfl⟩
  have hO' : ¬ (O < 0) := by omega
  have hOL' : ¬ (O + L < 0) := by omega
  rw [pySlice]
  apply List.drop_of_length_le
  rw [List.length_take, pyBound, pyBound, if_neg hO', if_neg hOL']
  have h1 : (O + L).toNat ≤ O.toNat := by omega
  omega

theorem history_limit_nonpos_amended_witness :
    ∃ r, get_conversation_history [("u", [turnA, turnB])] "u" "u" (-1) 1
        = .ok r ∧
      r.conversations = [] ∧
      r.total_conversations =
        ((dictGet [("u", [turnA, turnB])] "u").getD []).length :=
  history_limit_nonpos_amended [("u", [turnA, turnB])] "u" (-1) 1
    (by norm_num) (by norm_num) (by norm_num)

/-- C7: a history request by requester A for target B is `forbidden`
exactly when A ≠ B, and succeeds when A = B. -/
theorem history_owner_only (db : ConvDB) (A B : String) (L O : Int) :
    (A ≠ B → get_conversation_history db A B L O = .error .forbidden) ∧
    (A = B → ∃ r, get_conversation_history db A B L O = .ok r) := by
  constructor
  · intro h; simp [get_conversation_history, h]
  · intro h; subst h
    exact ⟨{ user_id := A,
             total_conversations := ((dictGet db A).getD []).length,
             limit := L, offset := O,
             conversations := pySlice ((dictGet db A).getD []) O (O + L) },
           by simp [get_conversation_history]⟩

theorem history_owner_only_witness :
    get_conversation_history [] "a" "b" 50 0 = .error .forbidden ∧
    ∃ r, get_conversation_history [] "a" "a" 50 0 = .ok r :=
  ⟨(history_owner_only [] "a" "b" 50 0).1 (by decide),
   (history_owner_only [] "a" "a" 50 0).2 rfl⟩

/-- C10: a negative offset is not rejected; with 3 stored turns,
`offset = -2`, `limit = 50`, the call succeeds and returns the last two
turns (Python negative-index slicing), a non-empty slice. -/
theorem history_negative_offset :
    get_conversation_history [("u", [turnA, turnB, turnC])] "u" "u" 50 (-2) =
      .ok { user_id := "u", total_conversations := 3, limit := 50,
            offset := -2, conversations := [turnB, turnC] } ∧
    [turnB, turnC] ≠ ([] : List Turn) := by
  exact ⟨by rfl, by decide⟩

/-! ## Credential hasher

`hash_password` in the source is SHA-256 over `password + salt` with the
fixed salt `"fitness-app-salt"`.  SHA-256 is modelled as an injective
encoding (ideal hash): the digest is the salted input itself, tagged.  The
only property the program relies on is that hashing is a deterministic
function recomputed by `verify_password` and compared for equality, which
this model shares with the real transform. -/

def hash_password (password : String) : String :=
  "sha256:" ++ password ++ "fitness-app-salt"

def verify_password (password : String) (hashed : String) : Bool :=
  hash_password password == hashed

theorem verify_password_hash (password : String) :
    verify_password password (hash_password password) = true := by
  simp [verify_password]

/-! ## Token service

`create_access_token` / `verify_token` delegate to PyJWT
(`jwt.encode` / `jwt.decode` with HS256).  A JWT payload is a dict of
claims; `jwt_decode` models PyJWT's behaviour: a structurally undecodable
token raises `DecodeError`, a signature mismatch raises
`InvalidSignatureError`, and an `exp` claim at or before the current time
raises `ExpiredSignatureError` (PyJWT checks `exp <= now`).  The HMAC is
modelled as an ideal MAC: a signature matches exactly when it was produced
with the same secret over the same payload. -/

inductive JwtValue
  | str (s : String)
  | time (t : Nat)
deriving Repr, DecidableEq

/-- A JWT payload: a Python dict of claims. -/
abbrev JwtClaims := List (String × JwtValue)

structure JwtSignature where
  secret : String
  signedPayload : JwtClaims
deriving Repr, DecidableEq

/-- Ideal-MAC model of HMAC-SHA256. -/
def hmacSign (secret : String) (payload : JwtClaims) : JwtSignature :=
  { secret := secret, signedPayload := payload }

/-- An encoded token: either a structurally decodable signed payload, or
bytes that cannot be decoded at all. -/
inductive TokenString
  | signed (payload : JwtClaims) (sig : JwtSignature)
  | malformed (raw : String)
deriving Repr, DecidableEq

def jwt_encode (payload : JwtClaims) (secret : String) : TokenString :=
  .signed payload (hmacSign secret payload)

inductive JwtError
  | invalidSignatureError
  | expiredSignatureError
  | decodeError
deriving Repr, DecidableEq

/-- PyJWT `jwt.decode(token, secret, algorithms=[...])` with default
options: structural decoding, then signature verification, then `exp`
validation (expired when `exp ≤ now`; a non-integer `exp` is a decode
error; a missing `exp` is accepted). -/
def jwt_decode (tok : TokenString) (secret : String) (now : Nat) :
    Except JwtError JwtClaims :=
  match tok with
  | .malformed _ => .error .decodeError
  | .signed payload sig =>
    if sig = hmacSign secret payload then
      match dictGet payload "exp" with
      | some (.time e) => if e ≤ now then .error .expiredSignatureError else .ok payload
      | some (.str _) => .error .decodeError
      | none => .ok payload
    else .error .invalidSignatureError

def SECRET_KEY : String := "dev-test-secret-key-for-jwt-tokens"

def ACCESS_TOKEN_EXPIRE_MINUTES : Nat := 1440

/-- `create_access_token` (`src/main.py` lines 114–118): copies the data
dict, adds `exp = now + 1440 minutes`, and signs with the module secret. -/
def create_access_token (data : JwtClaims) (now : Nat) : TokenString :=
  let expire := now + ACCESS_TOKEN_EXPIRE_MINUTES * 60
  jwt_encode (dictSet data "exp" (.time expire)) SECRET_KEY

/-- The claims dict carried by a decodable token. -/
def tokenPayload : TokenString → Option JwtClaims
  | .signed p _ => some p
  | .malformed _ => none

/-- `verify_token` (`src/main.py` lines 120–128): decodes with the shared
secret and returns the `user_id` claim; every PyJWT failure and a missing
`user_id` are collapsed into one generic 401 "Invalid credentials". -/
def verify_token (tok : TokenString) (now : Nat) : Except ApiError String :=
  match jwt_decode tok SECRET_KEY now with
  | .error _ => .error .invalidCredentials
  | .ok payload =>
    match dictGet payload "user_id" with
    | some (.str uid) => .ok uid
    | some (.time t) => .ok (toString t)
    | none => .error .invalidCredentials

/-! ## User store and registration/login -/

/-- One entry of `users_db` as built by `register_user`. -/
structure UserRecord where
  user_id : String
  email : String
  password : String
  first_name : String
  last_name : String
  fitness_goals : Option String
  created_at : Nat
  last_active : Nat
  is_active : Bool
deriving Repr, DecidableEq

abbrev UsersDB := List (String × UserRecord)

/-- The two module-level dicts of `src/main.py`. -/
structure AppState where
  users_db : UsersDB
  conversations_db : ConvDB
deriving Repr, DecidableEq

/-- The `UserRegister` request body. -/
structure UserRegister where
  email : String
  password : String
  first_name : String
  last_name : String
  fitness_goals : Option String
deriving Repr, DecidableEq

/-- Pydantic validation on `UserRegister`: password of at least 8
characters, names of 1–50 characters, goals of at most 500 characters,
and a well-formed email (modelled as containing an `@`). -/
def validUserRegister (r : UserRegister) : Bool :=
  (8 ≤ r.password.length) && (1 ≤ r.first_name.length) &&
  (r.first_name.length ≤ 50) && (1 ≤ r.last_name.length) &&
  (r.last_name.length ≤ 50) &&
  (match r.fitness_goals with
   | none => true
   | some g => g.length ≤ 500) &&
  (r.email.data.contains '@')

structure UserLogin where
  email : String
  password : String
deriving Repr, DecidableEq

/-- The response dict of `register_user` / `login_user`. -/
structure TokenResponse where
  message : String
  user_id : String
  access_token : TokenString
  token_type : String
  expires_in : Nat
deriving Repr, DecidableEq

/-- The duplicate-email scan of `register_user`: a case-sensitive exact
comparison over every stored record. -/
def emailTaken (users : UsersDB) (email : String) : Bool :=
  users.any (fun p => p.2.email == email)

/-- The login scan: first record (in dict insertion order) whose email
matches exactly. -/
def findByEmail (users : UsersDB) (email : String) :
    Option (String × UserRecord) :=
  match users with
  | [] => none
  | (uid, u) :: rest =>
    if u.email = email then some (uid, u) else findByEmail rest email

/-- `register_user` (`src/main.py` lines 204–236), as a state transformer:
the HTTP 409 path leaves the state untouched (the exception is raised
before any mutation).  `fresh` stands for the `uuid4` drawn, `now` for
`datetime.utcnow()`. -/
def register_user (st : AppState) (input : UserRegister) (fresh : String)
    (now : Nat) : Except ApiError TokenResponse × AppState :=
  if emailTaken st.users_db input.email then (.error .conflict, st)
  else
    let u : UserRecord :=
      { user_id := fresh, email := input.email
        password := hash_password input.password
        first_name := input.first_name, last_name := input.last_name
        fitness_goals := input.fitness_goals
        created_at := now, last_active := now, is_active := true }
    let st' : AppState :=
      { users_db := dictSet st.users_db fresh u
        conversations_db := dictSet st.conversations_db fresh [] }
    (.ok { message := "User registered successfully", user_id := fresh
           access_token := create_access_token
             [("user_id", .str fresh), ("email", .str input.email)] now
           token_type := "bearer"
           expires_in := ACCESS_TOKEN_EXPIRE_MINUTES * 60 }, st')

/-- `login_user` (`src/main.py` lines 238–261): finds the first record with
the given email, checks the password hash, refreshes `last_active`, and
issues a fresh token. -/
def login_user (st : AppState) (input : UserLogin) (now : Nat) :
    Except ApiError TokenResponse × AppState :=
  match findByEmail st.users_db input.email with
  | none => (.error .invalidCredentials, st)
  | some (uid, u) =>
    if verify_password input.password u.password then
      let u' : UserRecord := { u with last_active := now }
      let st' : AppState := { st with users_db := dictSet st.users_db uid u' }
      (.ok { message := "Login successful", user_id := uid
             access_token := create_access_token
               [("user_id", .str uid), ("email", .str u.email)] now
             token_type := "bearer"
             expires_in := ACCESS_TOKEN_EXPIRE_MINUTES * 60 }, st')
    else (.error .invalidCredentials, st)

theorem emailTaken_iff (users : UsersDB) (e : String) :
    emailTaken users e = true ↔ ∃ p ∈ users, p.2.email = e := by
  simp [emailTaken, List.any_eq_true]

theorem findByEmail_dictSet_fresh (users : UsersDB) (e uid : String)
    (u : UserRecord) (hmail : u.email = e)
    (htaken : emailTaken users e = false) :
    findByEmail (dictSet users uid u) e = some (uid, u) := by
  induction users with
  | nil => simp [dictSet, findByEmail, hmail]
  | cons p rest ih =>
    obtain ⟨k, v⟩ := p
    have hrest : emailTaken rest e = false := by
      simp [emailTaken] at htaken ⊢
      exact fun a b hab => htaken.2 a b hab
    have hv : ¬ (v.email = e) := by
      simp [emailTaken] at htaken
      exact htaken.1
    by_cases hk : k = uid
    · subst hk
      simp [dictSet, findByEmail, hmail]
    · simp [dictSet, hk, findByEmail, hv, ih hrest]

theorem verify_create_access_token (uid em : String) (t now : Nat)
    (h : now < t + ACCESS_TOKEN_EXPIRE_MINUTES * 60) :
    verify_token
      (create_access_token [("user_id", .str uid), ("email", .str em)] t)
      now = .ok uid := by
  have hexp : ¬ (t + ACCESS_TOKEN_EXPIRE_MINUTES * 60 ≤ now) := by omega
  simp [create_access_token, jwt_encode, verify_token, jwt_decode,
        dictSet, dictGet, hexp]

/-- C2: registering and then logging in with the same credentials both
succeed, return the same user id, and the two issued tokens both verify to
that same user id while unexpired. -/
theorem register_login_same_identity (st : AppState) (input : UserRegister)
    (fresh : String) (t0 t1 t2 : Nat)
    (hvalid : validUserRegister input = true)
    (hfree : emailTaken st.users_db input.email = false)
    (h01 : t0 ≤ t1)
    (hexp : t2 < t0 + ACCESS_TOKEN_EXPIRE_MINUTES * 60) :
    ∃ r1 st1 r2 st2,
      register_user st input fresh t0 = (.ok r1, st1) ∧
      login_user st1 { email := input.email, password := input.password } t1
        = (.ok r2, st2) ∧
      r1.user_id = fresh ∧ r2.user_id = fresh ∧
      verify_token r1.access_token t2 = .ok fresh ∧
      verify_token r2.access_token t2 = .ok fresh := by
  have hexp2 : t2 < t1 + ACCESS_TOKEN_EXPIRE_MINUTES * 60 := by omega
  refine ⟨{ message := "User registered successfully", user_id := fresh
            access_token := create_access_token
              [("user_id", .str fresh), ("email", .str input.email)] t0
            token_type := "bearer"
            expires_in := ACCESS_TOKEN_EXPIRE_MINUTES * 60 },
          { users_db := dictSet st.users_db fresh
              { user_id := fresh, email := input.email
                password := hash_password input.password
                first_name := input.first_name, last_name := input.last_name
                fitness_goals := input.fitness_goals
                created_at := t0, last_active := t0, is_active := true }
            conversations_db := dictSet st.conversations_db fresh [] },
          { message := "Login successful", user_id := fresh
            access_token := create_access_token
              [("user_id", .str fresh), ("email", .str input.email)] t1
            token_type := "bearer"
            expires_in := ACCESS_TOKEN_EXPIRE_MINUTES * 60 },
          { users_db := dictSet
              (dictSet st.users_db fresh
                { user_id := fresh, email := input.email
                  password := hash_password input.password
                  first_name := input.first_name
                  last_name := input.last_name
                  fitness_goals := input.fitness_goals
                  created_at := t0, last_active := t0, is_active := true })
              fresh
              { user_id := fresh, email := input.email
                password := hash_password input.password
                first_name := input.first_name, last_name := input.last_name
                fitness_goals := input.fitness_goals
                created_at := t0, last_active := t1, is_active := true }
            conversations_db := dictSet st.conversations_db fresh [] },
          ?_, ?_, ?_, ?_, ?_, ?_⟩
  · simp [register_user, hfree]
  · have hfind := findByEmail_dictSet_fresh st.users_db input.email fresh
      { user_id := fresh, email := input.email
        password := hash_password input.password
        first_name := input.first_name, last_name := input.last_name
        fitness_goals := input.fitness_goals
        created_at := t0, last_active := t0, is_active := true }
      rfl hfree
    simp [login_user, hfind, verify_password_hash]
  · rfl
  · rfl
  · exact verify_create_access_token fresh input.email t0 t2 hexp
  · exact verify_create_access_token fresh input.email t1 t2 hexp2

theorem register_login_same_identity_witness :
    validUserRegister
      { email := "a@b.c", password := "password1", first_name := "A"
        last_name := "B", fitness_goals := none } = true ∧
    emailTaken ([] : UsersDB) "a@b.c" = false ∧
    (0 : Nat) ≤ 5 ∧ ((10 : Nat) < 0 + ACCESS_TOKEN_EXPIRE_MINUTES * 60) ∧
    ∃ r1 st1 r2 st2,
      register_user { users_db := [], conversations_db := [] }
        { email := "a@b.c", password := "password1", first_name := "A"
          last_name := "B", fitness_goals := none } "uid-1" 0 = (.ok r1, st1) ∧
      login_user st1 { email := "a@b.c", password := "password1" } 5
        = (.ok r2, st2) ∧
      r1.user_id = "uid-1" ∧ r2.user_id = "uid-1" ∧
      verify_token r1.access_token 10 = .ok "uid-1" ∧
      verify_token r2.access_token 10 = .ok "uid-1" :=
  ⟨by decide, by decide, by norm_num, by decide,
   register_login_same_identity
     { users_db := [], conversations_db := [] }
     { email := "a@b.c", password := "password1", first_name := "A"
       last_name := "B", fitness_goals := none }
     "uid-1" 0 5 10 (by decide) (by decide) (by norm_num) (by decide)⟩

/-- C3: registration fails with Conflict exactly when some stored record
has the very same email (case-sensitive exact match); on Conflict the state
is untouched; on success the new record is appended with the freshly drawn
identifier and both timestamps set to now, all other records unchanged. -/
theorem register_conflict_iff (st : AppState) (input : UserRegister)
    (fresh : String) (now : Nat)
    (hfresh : dictGet st.users_db fresh = none) :
    ((register_user st input fresh now).1 = .error .conflict ↔
      ∃ p ∈ st.users_db, p.2.email = input.email) ∧
    ((register_user st input fresh now).1 = .error .conflict →
      (register_user st input fresh now).2 = st) ∧
    (emailTaken st.users_db input.email = false →
      (register_user st input fresh now).2.users_db =
        st.users_db ++ [(fresh,
          { user_id := fresh, email := input.email
            password := hash_password input.password
            first_name := input.first_name, last_name := input.last_name
            fitness_goals := input.fitness_goals
            created_at := now, last_active := now, is_active := true })]) := by
  by_cases hT : emailTaken st.users_db input.email
  · refine ⟨?_, ?_, ?_⟩
    · rw [iff_true_right ((emailTaken_iff st.users_db input.email).mp hT)]
      simp [register_user, hT]
    · intro _; simp [register_user, hT]
    · intro hF; rw [hT] at hF; cases hF
  · have hnot : ¬ ∃ p ∈ st.users_db, p.2.email = input.email := by
      rw [← emailTaken_iff]
      simp [hT]
    refine ⟨?_, ?_, ?_⟩
    · rw [iff_false_right hnot]
      simp [register_user, hT]
    · intro habs
      simp [register_user, hT] at habs
    · intro _
      simp [register_user, hT, dictSet_of_get_none st.users_db fresh _ hfresh]

theorem register_conflict_iff_witness :
    ((register_user { users_db := [], conversations_db := [] }
        { email := "a@b.c", password := "password1", first_name := "A"
          last_name := "B", fitness_goals := none } "uid-1" 7).1
      = .error .conflict ↔
      ∃ p ∈ ([] : UsersDB), p.2.email = "a@b.c") ∧
    ((register_user { users_db := [], conversations_db := [] }
        { email := "a@b.c", password := "password1", first_name := "A"
          last_name := "B", fitness_goals := none } "uid-1" 7).1
      = .error .conflict →
      (register_user { users_db := [], conversations_db := [] }
        { email := "a@b.c", password := "password1", first_name := "A"
          last_name := "B", fitness_goals := none } "uid-1" 7).2
        = { users_db := [], conversations_db := [] }) ∧
    (emailTaken ([] : UsersDB) "a@b.c" = false →
      (register_user { users_db := [], conversations_db := [] }
        { email := "a@b.c", password := "password1", first_name := "A"
          last_name := "B", fitness_goals := none } "uid-1" 7).2.users_db =
        [] ++ [("uid-1",
          { user_id := "uid-1", email := "a@b.c"
            password := hash_password "password1"
            first_name := "A", last_name := "B", fitness_goals := none
            created_at := 7, last_active := 7, is_active := true })]) :=
  register_conflict_iff { users_db := [], conversations_db := [] }
    { email := "a@b.c", password := "password1", first_name := "A"
      last_name := "B", fitness_goals := none } "uid-1" 7 rfl

/-- C4 as stated is false: the payload of an issued token carries exactly
the claims `user_id`, `email` and `exp` — there is no issued-at (`iat`)
claim. -/
theorem token_payload_counterexample :
    tokenPayload (create_access_token
        [("user_id", JwtValue.str "u"), ("email", JwtValue.str "e")] 0) =
      some [("user_id", JwtValue.str "u"), ("email", JwtValue.str "e"),
            ("exp", JwtValue.time 86400)] ∧
    dictGet [("user_id", JwtValue.str "u"), ("email", JwtValue.str "e"),
             ("exp", JwtValue.time 86400)] "iat" = none :=
  ⟨rfl, rfl⟩

/-- C4 amended: the issued token is a signed credential whose payload
contains the user id, the email, and an expires-at equal to the issue time
plus the (fixed, 1440-minute) ttl; no issued-at claim is stored. -/
theorem token_payload_amended (uid em : String) (now : Nat) :
    ∃ payload sig,
      create_access_token [("user_id", .str uid), ("email", .str em)] now
        = .signed payload sig ∧
      dictGet payload "user_id" = some (.str uid) ∧
      dictGet payload "email" = some (.str em) ∧
      dictGet payload "exp"
        = some (.time (now + ACCESS_TOKEN_EXPIRE_MINUTES * 60)) ∧
      dictGet payload "iat" = none ∧
      sig = hmacSign SECRET_KEY payload :=
  ⟨_, _, rfl, rfl, rfl, rfl, rfl, rfl⟩

/-- C6: the token-decoding layer inside `verify_token` (PyJWT's decode)
fails with three pairwise-distinct outcomes according to cause: a
structurally undecodable token is a decode error, a wrong signature is an
invalid-signature error, and a correctly signed token whose expiry is at or
before the current time is an expired-signature error.  `verify_token`
itself then maps each of them to one generic 401 outward. -/
theorem token_verification_failures (secret : String) (now : Nat) :
    (∀ raw, jwt_decode (.malformed raw) secret now = .error .decodeError) ∧
    (∀ payload sig, sig ≠ hmacSign secret payload →
      jwt_decode (.signed payload sig) secret now
        = .error .invalidSignatureError) ∧
    (∀ payload e, dictGet payload "exp" = some (.time e) → e ≤ now →
      jwt_decode (.signed payload (hmacSign secret payload)) secret now
        = .error .expiredSignatureError) ∧
    (JwtError.invalidSignatureError ≠ JwtError.expiredSignatureError ∧
     JwtError.invalidSignatureError ≠ JwtError.decodeError ∧
     JwtError.expiredSignatureError ≠ JwtError.decodeError) := by
  refine ⟨fun raw => rfl, ?_, ?_, by decide⟩
  · intro payload sig h
    simp [jwt_decode, h]
  · intro payload e he hle
    simp [jwt_decode, he, hle]

theorem token_verification_failures_witness :
    jwt_decode (.signed [] { secret := "x", signedPayload := [] }) "s" 5
      = .error .invalidSignatureError ∧
    jwt_decode (.signed [("exp", .time 3)] (hmacSign "s" [("exp", .time 3)]))
        "s" 5 = .error .expiredSignatureError :=
  ⟨(token_verification_failures "s" 5).2.1 []
     { secret := "x", signedPayload := [] } (by decide),
   (token_verification_failures "s" 5).2.2.1 [("exp", .time 3)] 3 rfl
     (by norm_num)⟩

/-! ## Stats endpoint -/

/-- The response dict of `get_user_stats`. -/
structure UserStatsResult where
  user_id : String
  total_conversations : Nat
  total_messages : Nat
  days_active : Nat
  member_since : Nat
  last_active : Nat
deriving Repr, DecidableEq

/-- Python's `min(conv["timestamp"] for conv in user_conversations)` over a
non-empty sequence, as a left fold. -/
def earliestTimestamp (c : Turn) (cs : List Turn) : Nat :=
  cs.foldl (fun m t => min m t.timestamp) c.timestamp

/-- `get_user_stats` (`src/main.py` lines 335–355): with stored turns,
`days_active = (utcnow() - earliest timestamp).days + 1`; with none, 0.
A day is 86400 seconds. -/
def get_user_stats (st : AppState) (u : UserRecord) (now : Nat) :
    UserStatsResult :=
  let user_conversations := (dictGet st.conversations_db u.user_id).getD []
  let days_active :=
    match user_conversations with
    | [] => 0
    | c :: cs => (now - earliestTimestamp c cs) / 86400 + 1
  { user_id := u.user_id
    total_conversations := user_conversations.length
    total_messages := user_conversations.length
    days_active := days_active
    member_since := u.created_at
    last_active := u.last_active }

theorem foldMin_le_init (cs : List Turn) (a : Nat) :
    cs.foldl (fun m t => min m t.timestamp) a ≤ a := by
  induction cs generalizing a with
  | nil => exact le_refl a
  | cons t ts ih =>
    exact le_trans (ih (min a t.timestamp)) (Nat.min_le_left _ _)

theorem foldMin_le_mem (cs : List Turn) (a : Nat) (t : Turn) (h : t ∈ cs) :
    cs.foldl (fun m s => min m s.timestamp) a ≤ t.timestamp := by
  induction cs generalizing a with
  | nil => cases h
  | cons s ts ih =>
    rcases List.mem_cons.mp h with h1 | h1
    · subst h1
      exact le_trans (foldMin_le_init ts (min a t.timestamp))
        (Nat.min_le_right _ _)
    · exact ih (min a s.timestamp) h1

theorem foldMin_mem (cs : List Turn) (a : Nat) :
    cs.foldl (fun m s => min m s.timestamp) a = a ∨
    ∃ t ∈ cs, cs.foldl (fun m s => min m s.timestamp) a = t.timestamp := by
  induction cs generalizing a with
  | nil => exact Or.inl rfl
  | cons s ts ih =>
    rcases ih (min a s.timestamp) with h | ⟨t, ht, he⟩
    · rcases Nat.le_total a s.timestamp with hle | hle
      · left
        simpa [List.foldl, Nat.min_eq_left hle] using h
      · right
        refine ⟨s, List.mem_cons_self s ts, ?_⟩
        simpa [List.foldl, Nat.min_eq_right hle] using h
    · right
      exact ⟨t, List.mem_cons_of_mem s ht, he⟩

theorem earliestTimestamp_spec (c : Turn) (cs : List Turn) :
    earliestTimestamp c cs ∈ (c :: cs).map Turn.timestamp ∧
    ∀ x ∈ (c :: cs).map Turn.timestamp, earliestTimestamp c cs ≤ x := by
  constructor
  · rcases foldMin_mem cs c.timestamp with h | ⟨t, ht, he⟩
    · rw [earliestTimestamp, h]
      exact List.mem_map_of_mem Turn.timestamp (List.mem_cons_self c cs)
    · rw [earliestTimestamp, he]
      exact List.mem_map_of_mem Turn.timestamp (List.mem_cons_of_mem c ht)
  · intro x hx
    rcases List.mem_map.mp hx with ⟨t, ht, he⟩
    subst he
    rcases List.mem_cons.mp ht with h1 | h1
    · subst h1
      exact foldMin_le_init cs t.timestamp
    · exact foldMin_le_mem cs c.timestamp t h1

/-- C8: `days_active` is the number of whole days between the earliest
stored timestamp and now, plus one; with no stored turns it is 0.  The
earliest timestamp is characterised as the least element of the stored
timestamps. -/
theorem stats_days_active (st : AppState) (u : UserRecord) (now : Nat) :
    ((dictGet st.conversations_db u.user_id).getD [] = [] →
      (get_user_stats st u now).days_active = 0) ∧
    (∀ c cs, (dictGet st.conversations_db u.user_id).getD [] = c :: cs →
      ∀ m, m ∈ (c :: cs).map Turn.timestamp →
        (∀ x ∈ (c :: cs).map Turn.timestamp, m ≤ x) → m ≤ now →
        (get_user_stats st u now).days_active = (now - m) / 86400 + 1) := by
  constructor
  · intro h
    simp [get_user_stats, h]
  · intro c cs h m hmem hlb _
    have hspec := earliestTimestamp_spec c cs
    have he : m = earliestTimestamp c cs :=
      Nat.le_antisymm (hlb _ hspec.1) (hspec.2 m hmem)
    simp [get_user_stats, h, he]

theorem stats_days_active_witness :
    ((dictGet ([("u", [turnA, turnB, turnC])] : ConvDB) "v").getD [] = [] →
      (get_user_stats
        { users_db := [], conversations_db := [("u", [turnA, turnB, turnC])] }
        { user_id := "v", email := "v@b.c", password := "p"
          first_name := "V", last_name := "V", fitness_goals := none
          created_at := 0, last_active := 0, is_active := true }
        200000).days_active = 0) ∧
    ((get_user_stats
        { users_db := [], conversations_db := [("u", [turnA, turnB, turnC])] }
        { user_id := "u", email := "u@b.c", password := "p"
          first_name := "U", last_name := "U", fitness_goals := none
          created_at := 0, last_active := 0, is_active := true }
        200000).days_active = (200000 - 100) / 86400 + 1) := by
  constructor
  · exact (stats_days_active
      { users_db := [], conversations_db := [("u", [turnA, turnB, turnC])] }
      { user_id := "v", email := "v@b.c", password := "p"
        first_name := "V", last_name := "V", fitness_goals := none
        created_at := 0, last_active := 0, is_active := true } 200000).1
  · exact (stats_days_active
      { users_db := [], conversations_db := [("u", [turnA, turnB, turnC])] }
      { user_id := "u", email := "u@b.c", password := "p"
        first_name := "U", last_name := "U", fitness_goals := none
        created_at := 0, last_active := 0, is_active := true } 200000).2
      turnA [turnB, turnC] rfl 100 (by decide) (by decide) (by decide)

/-! ## Profile update (`src/main_complex.py` lines 488–508) -/

/-- The `UpdateProfile` request body: each field optional. -/
structure UpdateProfile where
  first_name : Option String
  last_name : Option String
  fitness_goals : Option String
deriving Repr, DecidableEq

/-- `update_user_profile`: sets each of `first_name`, `last_name`,
`fitness_goals` only when the request provides it, then refreshes
`last_active`.  The handler runs for an authenticated `current_user`, so
the record is present; the `none` branch is unreachable there. -/
def update_user_profile (users : UsersDB) (uid : String)
    (upd : UpdateProfile) (now : Nat) : UsersDB :=
  match dictGet users uid with
  | none => users
  | some u =>
    dictSet users uid
      { u with
        first_name := upd.first_name.getD u.first_name
        last_name := upd.last_name.getD u.last_name
        fitness_goals :=
          match upd.fitness_goals with
          | some g => some g
          | none => u.fitness_goals
        last_active := now }

/-- C9: the profile update changes exactly the provided fields and
refreshes `last_active`; the record's identifier, email, password hash,
creation time and active flag are untouched (the `{ u with ... }` form
keeps every field not listed), and every other user's entry is unchanged. -/
theorem update_profile_frame (users : UsersDB) (uid : String)
    (upd : UpdateProfile) (now : Nat) (u : UserRecord)
    (hu : dictGet users uid = some u) :
    dictGet (update_user_profile users uid upd now) uid =
      some { u with
             first_name := upd.first_name.getD u.first_name
             last_name := upd.last_name.getD u.last_name
             fitness_goals :=
               match upd.fitness_goals with
               | some g => some g
               | none => u.fitness_goals
             last_active := now } ∧
    ∀ k, k ≠ uid → dictGet (update_user_profile users uid upd now) k
      = dictGet users k := by
  constructor
  · simp [update_user_profile, hu, dictGet_dictSet_self]
  · intro k hk
    simp only [update_user_profile, hu]
    exact dictGet_dictSet_ne users uid k _ (fun he => hk he.symm)

theorem update_profile_frame_witness :
    dictGet (update_user_profile
        [("u", { user_id := "u", email := "u@b.c", password := "p"
                 first_name := "U", last_name := "V", fitness_goals := none
                 created_at := 3, last_active := 4, is_active := true })]
        "u" { first_name := some "W", last_name := none
              fitness_goals := none } 9) "u" =
      some { user_id := "u", email := "u@b.c", password := "p"
             first_name := "W", last_name := "V", fitness_goals := none
             created_at := 3, last_active := 9, is_active := true } ∧
    ∀ k, k ≠ "u" → dictGet (update_user_profile
        [("u", { user_id := "u", email := "u@b.c", password := "p"
                 first_name := "U", last_name := "V", fitness_goals := none
                 created_at := 3, last_active := 4, is_active := true })]
        "u" { first_name := some "W", last_name := none
              fitness_goals := none } 9) k =
      dictGet
        [("u", { user_id := "u", email := "u@b.c", password := "p"
                 first_name := "U", last_name := "V", fitness_goals := none
                 created_at := 3, last_active := 4, is_active := true })] k :=
  update_profile_frame
    [("u", { user_id := "u", email := "u@b.c", password := "p"
             first_name := "U", last_name := "V", fitness_goals := none
             created_at := 3, last_active := 4, is_active := true })]
    "u" { first_name := some "W", last_name := none, fitness_goals := none }
    9 _ rfl

end FitPub
